import Mathlib

/-
  Shallow embedding of xyproto/bucketfile (src/bucketfile.go), a thin
  facade over a cloud object-storage client exposing Upload, Get and List.

  The collaborator (the storage client library) is not part of the
  repository, so its behaviour is modelled abstractly:
  * an abstract `Store` maps (bucket, object) to the committed byte
    content; a successful Writer.Close (finalize) commits the upload,
    and NewReader reads from it;
  * each operation takes an environment describing the outcome of every
    collaborator step it performs (client construction, byte copy,
    finalize, reader open, full read, iterator events), since those
    outcomes are decided by the remote service;
  * errors are the strings the Go code builds with fmt.Errorf, keeping
    the static step tags of the source;
  * each result also records which resources were acquired and released,
    mirroring the defer statements of the source.
-/

namespace Bucketfile

/-- Abstract object store: committed content of each (bucket, object). -/
structure Store where
  objects : String → String → Option (List Nat)

/-- Outcomes of the collaborator steps performed by `Upload`:
`storage.NewClient`, `io.Copy` into the writer, and `wc.Close`
(finalize).  `none` means the step succeeds. -/
structure UploadEnv where
  clientErr : Option String
  copyErr : Option String
  closeErr : Option String

/-- Result of `Upload`: the returned error, the store after the call,
and which resources were acquired, released and invoked. -/
structure UploadResult where
  err : Option String
  store : Store
  clientAcquired : Bool
  clientReleased : Bool
  finalizeCalled : Bool

/-- Embedding of `Upload` (src/bucketfile.go lines 20-41): build a
client, open a writer for (bucket, object), copy all bytes, then close
(finalize) the writer, which commits the object.  Each failing step
returns immediately with its tagged error; `defer client.Close()`
releases the client on every path after construction succeeds. -/
def Upload (file : List Nat) (bucket object : String)
    (env : UploadEnv) (s : Store) : UploadResult :=
  match env.clientErr with
  | some e => ⟨some ("storage.NewClient: " ++ e), s, false, false, false⟩
  | none =>
    match env.copyErr with
    | some e => ⟨some ("io.Copy: " ++ e), s, true, true, false⟩
    | none =>
      match env.closeErr with
      | some e => ⟨some ("Writer.Close: " ++ e), s, true, true, true⟩
      | none =>
        ⟨none,
         ⟨fun b o => if b = bucket ∧ o = object then some file
                     else s.objects b o⟩,
         true, true, true⟩

/-- Outcomes of the collaborator steps performed by `Get`:
`storage.NewClient`, `NewReader` (an injected open failure beyond the
object simply being absent, e.g. access denied), and `ioutil.ReadAll`. -/
structure GetEnv where
  clientErr : Option String
  readerErr : Option String
  readErr : Option String

/-- Result of `Get`: the returned bytes (nil is the empty list), the
returned error, and the resource bookkeeping of the two defers. -/
structure GetResult where
  data : List Nat
  err : Option String
  clientAcquired : Bool
  clientReleased : Bool
  readerOpened : Bool
  readerClosed : Bool

/-- Embedding of `Get` (src/bucketfile.go lines 46-69): build a client,
open a reader for (bucket, object) — failing with a wrapped error
naming the object when the open fails or the object is absent — then
read it to exhaustion.  `defer client.Close()` and `defer rc.Close()`
release both resources on every path after their acquisition. -/
def Get (bucket object : String) (env : GetEnv) (s : Store) : GetResult :=
  match env.clientErr with
  | some e => ⟨[], some ("storage.NewClient: " ++ e), false, false, false, false⟩
  | none =>
    match env.readerErr with
    | some e =>
      ⟨[], some ("Object(\"" ++ object ++ "\").NewReader: " ++ e),
       true, true, false, false⟩
    | none =>
      match s.objects bucket object with
      | none =>
        ⟨[], some ("Object(\"" ++ object ++
                   "\").NewReader: storage: object does not exist"),
         true, true, false, false⟩
      | some data =>
        match env.readErr with
        | some e => ⟨[], some ("ioutil.ReadAll: " ++ e), true, true, true, true⟩
        | none => ⟨data, none, true, true, true, true⟩

/-- One outcome of `it.Next()` in the listing loop: either an object
with a name, or a non-Done error.  The end of the event list models
`iterator.Done`. -/
inductive ListEvent where
  | name (n : String)
  | fail (e : String)
deriving DecidableEq

/-- Outcomes of the collaborator steps performed by `List`:
`storage.NewClient` and the stream of iterator results. -/
structure ListEnv where
  clientErr : Option String
  events : List ListEvent

/-- Result of `List`: the accumulated names, the returned error, and
the client bookkeeping of its defer. -/
structure ListResult where
  names : List String
  err : Option String
  clientAcquired : Bool
  clientReleased : Bool

/-- The `for` loop of `List` (src/bucketfile.go lines 87-96):
`fileNames` is the accumulator; the loop breaks on `iterator.Done`
(end of events), returns the accumulator alongside the wrapped error
on a failing `Next`, and otherwise appends `attrs.Name` and loops. -/
def listLoop (bucket : String) (fileNames : List String) :
    List ListEvent → List String × Option String
  | [] => (fileNames, none)
  | ListEvent.fail e :: _ =>
    (fileNames, some ("Bucket(\"" ++ bucket ++ "\").Objects: " ++ e))
  | ListEvent.name n :: rest => listLoop bucket (fileNames ++ [n]) rest

/-- The context a remote call of the facade runs under: the background
context, or a context carrying a deadline of the given number of time
units. -/
inductive CtxKind where
  | background
  | withTimeout (seconds : Nat)
deriving DecidableEq, BEq

/-- A remote collaborator call of the facade together with the context
it receives. -/
structure RemoteCall where
  step : String
  ctx : CtxKind
deriving DecidableEq, BEq

/-- The remote calls of `Upload` in source order with the context each
receives: `storage.NewClient` runs under `context.Background()`; the
50-unit timeout context is created afterwards (line 28) and passed to
`NewWriter`, so the copy and the finalize run under it. -/
def uploadCalls : List RemoteCall :=
  [⟨"storage.NewClient", CtxKind.background⟩,
   ⟨"NewWriter", CtxKind.withTimeout 50⟩,
   ⟨"io.Copy", CtxKind.withTimeout 50⟩,
   ⟨"Writer.Close", CtxKind.withTimeout 50⟩]

/-- The remote calls of `Get` in source order with the context each
receives: `storage.NewClient` runs under `context.Background()`; the
50-unit timeout context is created afterwards (line 54) and passed to
`NewReader`, so the read and the reader close run under it. -/
def getCalls : List RemoteCall :=
  [⟨"storage.NewClient", CtxKind.background⟩,
   ⟨"NewReader", CtxKind.withTimeout 50⟩,
   ⟨"ioutil.ReadAll", CtxKind.withTimeout 50⟩,
   ⟨"Reader.Close", CtxKind.withTimeout 50⟩]

/-- The remote calls of `List` in source order with the context each
receives: `storage.NewClient` runs under `context.Background()`; the
10-unit timeout context is created afterwards (line 83) and passed to
`Objects`, so every `it.Next()` runs under it. -/
def listCalls : List RemoteCall :=
  [⟨"storage.NewClient", CtxKind.background⟩,
   ⟨"Objects", CtxKind.withTimeout 10⟩,
   ⟨"Iterator.Next", CtxKind.withTimeout 10⟩]

/-- Embedding of `List` (src/bucketfile.go lines 73-99): build a
client, then run the iteration loop starting from the nil slice.  On a
client-construction failure the nil accumulator is returned alongside
the tagged error. -/
def List (bucket : String) (env : ListEnv) : ListResult :=
  match env.clientErr with
  | some e => ⟨[], some ("storage.NewClient: " ++ e), false, false⟩
  | none =>
    let r := listLoop bucket [] env.events
    ⟨r.1, r.2, true, true⟩

end Bucketfile

/-- The empty store, used as a concrete starting point. -/
def store0 : Bucketfile.Store := ⟨fun _ _ => none⟩

/-- C1: if `Upload(B, bucket, object)` returns success then a `Fetch`
of the same (bucket, object) against the resulting store, with no
intervening upload and with every collaborator step of the fetch
succeeding, returns exactly B and no error. -/
theorem upload_get_roundtrip (B : List Nat) (bucket object : String)
    (uenv : Bucketfile.UploadEnv) (genv : Bucketfile.GetEnv)
    (s : Bucketfile.Store)
    (hu : (Bucketfile.Upload B bucket object uenv s).err = none)
    (hc : genv.clientErr = none) (hr : genv.readerErr = none)
    (hd : genv.readErr = none) :
    (Bucketfile.Get bucket object genv
        (Bucketfile.Upload B bucket object uenv s).store).data = B ∧
    (Bucketfile.Get bucket object genv
        (Bucketfile.Upload B bucket object uenv s).store).err = none := by
  cases h1 : uenv.clientErr with
  | some e => simp [Bucketfile.Upload, h1] at hu
  | none =>
    cases h2 : uenv.copyErr with
    | some e => simp [Bucketfile.Upload, h1, h2] at hu
    | none =>
      cases h3 : uenv.closeErr with
      | some e => simp [Bucketfile.Upload, h1, h2, h3] at hu
      | none =>
        simp [Bucketfile.Upload, Bucketfile.Get, h1, h2, h3, hc, hr, hd]

/-- Concrete instance of the round-trip: uploading [1, 2, 3] to
("b", "o") in the empty store and fetching it back yields [1, 2, 3]. -/
theorem upload_get_roundtrip_witness :
    (Bucketfile.Get "b" "o" ⟨none, none, none⟩
        (Bucketfile.Upload [1, 2, 3] "b" "o" ⟨none, none, none⟩ store0).store).data
      = [1, 2, 3] ∧
    (Bucketfile.Get "b" "o" ⟨none, none, none⟩
        (Bucketfile.Upload [1, 2, 3] "b" "o" ⟨none, none, none⟩ store0).store).err
      = none :=
  upload_get_roundtrip [1, 2, 3] "b" "o" ⟨none, none, none⟩ ⟨none, none, none⟩
    store0 rfl rfl rfl rfl

/-- C4: `Upload` returns success exactly when client construction, the
byte copy and the finalize all succeed; and when the first two succeed
but the finalize fails, it returns the commit-tagged error and leaves
the store unchanged (the write did not succeed). -/
theorem upload_success_iff (file : List Nat) (bucket object : String)
    (env : Bucketfile.UploadEnv) (s : Bucketfile.Store) :
    ((Bucketfile.Upload file bucket object env s).err = none ↔
      env.clientErr = none ∧ env.copyErr = none ∧ env.closeErr = none) ∧
    (∀ e, env.clientErr = none → env.copyErr = none → env.closeErr = some e →
      (Bucketfile.Upload file bucket object env s).err
          = some ("Writer.Close: " ++ e) ∧
      (Bucketfile.Upload file bucket object env s).store = s) := by
  cases h1 : env.clientErr with
  | some e => simp [Bucketfile.Upload, h1]
  | none =>
    cases h2 : env.copyErr with
    | some e => simp [Bucketfile.Upload, h1, h2]
    | none =>
      cases h3 : env.closeErr with
      | some e => simp [Bucketfile.Upload, h1, h2, h3]
      | none => simp [Bucketfile.Upload, h1, h2, h3]

/-- Concrete instance of C4: when the finalize fails with "disk full",
`Upload` reports the commit-tagged error and the store is unchanged. -/
theorem upload_success_iff_witness :
    (Bucketfile.Upload [1] "b" "o" ⟨none, none, some "disk full"⟩ store0).err
        = some ("Writer.Close: " ++ "disk full") ∧
    (Bucketfile.Upload [1] "b" "o" ⟨none, none, some "disk full"⟩ store0).store
        = store0 :=
  (upload_success_iff [1] "b" "o" ⟨none, none, some "disk full"⟩ store0).2
    "disk full" rfl rfl rfl

/-- C10: if the byte copy fails, `Upload` returns the copy-tagged
error, never calls the finalize of the write channel, and leaves the
store unchanged (no commit of the object is attempted). -/
theorem upload_copy_failure_no_finalize (file : List Nat)
    (bucket object : String) (env : Bucketfile.UploadEnv)
    (s : Bucketfile.Store) (e : String)
    (hc : env.clientErr = none) (hcp : env.copyErr = some e) :
    (Bucketfile.Upload file bucket object env s).err = some ("io.Copy: " ++ e) ∧
    (Bucketfile.Upload file bucket object env s).finalizeCalled = false ∧
    (Bucketfile.Upload file bucket object env s).store = s := by
  simp [Bucketfile.Upload, hc, hcp]

/-- Concrete instance of C10: a copy failing with "timeout" yields the
copy-tagged error with no finalize and no store change. -/
theorem upload_copy_failure_no_finalize_witness :
    (Bucketfile.Upload [7] "b" "o" ⟨none, some "timeout", none⟩ store0).err
        = some ("io.Copy: " ++ "timeout") ∧
    (Bucketfile.Upload [7] "b" "o" ⟨none, some "timeout", none⟩ store0).finalizeCalled
        = false ∧
    (Bucketfile.Upload [7] "b" "o" ⟨none, some "timeout", none⟩ store0).store
        = store0 :=
  upload_copy_failure_no_finalize [7] "b" "o" ⟨none, some "timeout", none⟩
    store0 "timeout" rfl rfl

/-- C5: whenever opening the read channel fails — an injected open
failure, or the object being absent from the store — `Get` returns the
open-tagged error naming the object, together with no content. -/
theorem get_open_failure_tagged (bucket object : String)
    (env : Bucketfile.GetEnv) (s : Bucketfile.Store)
    (hc : env.clientErr = none) :
    (∀ e, env.readerErr = some e →
      (Bucketfile.Get bucket object env s).data = [] ∧
      (Bucketfile.Get bucket object env s).err
        = some ("Object(\"" ++ object ++ "\").NewReader: " ++ e)) ∧
    (env.readerErr = none → s.objects bucket object = none →
      (Bucketfile.Get bucket object env s).data = [] ∧
      (Bucketfile.Get bucket object env s).err
        = some ("Object(\"" ++ object ++
                "\").NewReader: storage: object does not exist")) := by
  cases h1 : env.readerErr with
  | some e => simp [Bucketfile.Get, hc, h1]
  | none =>
    cases h2 : s.objects bucket object with
    | some d => simp [Bucketfile.Get, hc, h1, h2]
    | none => simp [Bucketfile.Get, hc, h1, h2]

/-- Concrete instance of C5: fetching "does-not-exist" from the empty
store returns no content and the open-tagged error naming the object. -/
theorem get_open_failure_tagged_witness :
    (Bucketfile.Get "b" "does-not-exist" ⟨none, none, none⟩ store0).data = [] ∧
    (Bucketfile.Get "b" "does-not-exist" ⟨none, none, none⟩ store0).err
      = some ("Object(\"" ++ "does-not-exist" ++
              "\").NewReader: storage: object does not exist") :=
  (get_open_failure_tagged "b" "does-not-exist" ⟨none, none, none⟩ store0
    rfl).2 rfl rfl

/-- C6: on every failing path of `Get` — client construction, reader
open, missing object, or read — the returned byte sequence is empty. -/
theorem get_no_partial_content (bucket object : String)
    (env : Bucketfile.GetEnv) (s : Bucketfile.Store)
    (h : (Bucketfile.Get bucket object env s).err ≠ none) :
    (Bucketfile.Get bucket object env s).data = [] := by
  cases h1 : env.clientErr with
  | some e => simp [Bucketfile.Get, h1]
  | none =>
    cases h2 : env.readerErr with
    | some e => simp [Bucketfile.Get, h1, h2]
    | none =>
      cases h3 : s.objects bucket object with
      | none => simp [Bucketfile.Get, h1, h2, h3]
      | some d =>
        cases h4 : env.readErr with
        | some e => simp [Bucketfile.Get, h1, h2, h3, h4]
        | none => simp [Bucketfile.Get, h1, h2, h3, h4] at h

/-- Concrete instance of C6: a failing read yields empty content. -/
theorem get_no_partial_content_witness :
    (Bucketfile.Get "b" "o" ⟨some "no credentials", none, none⟩ store0).data
      = [] :=
  get_no_partial_content "b" "o" ⟨some "no credentials", none, none⟩ store0
    (by simp [Bucketfile.Get])

/-- C9: on every exit path of every operation, the client acquired by
the call is released exactly when it was acquired, and the read channel
of `Get` is closed exactly when it was opened — release on all paths,
also the failing ones. -/
theorem resources_released_all_paths (file : List Nat)
    (bucket object : String) (uenv : Bucketfile.UploadEnv)
    (genv : Bucketfile.GetEnv) (lenv : Bucketfile.ListEnv)
    (s : Bucketfile.Store) :
    ((Bucketfile.Upload file bucket object uenv s).clientReleased
        = (Bucketfile.Upload file bucket object uenv s).clientAcquired) ∧
    ((Bucketfile.Get bucket object genv s).clientReleased
        = (Bucketfile.Get bucket object genv s).clientAcquired) ∧
    ((Bucketfile.Get bucket object genv s).readerClosed
        = (Bucketfile.Get bucket object genv s).readerOpened) ∧
    ((Bucketfile.List bucket lenv).clientReleased
        = (Bucketfile.List bucket lenv).clientAcquired) := by
  refine ⟨?_, ?_, ?_, ?_⟩
  · cases h1 : uenv.clientErr <;> cases h2 : uenv.copyErr <;>
      cases h3 : uenv.closeErr <;> simp [Bucketfile.Upload, h1, h2, h3]
  · cases h1 : genv.clientErr <;> cases h2 : genv.readerErr <;>
      cases h3 : s.objects bucket object <;> cases h4 : genv.readErr <;>
      simp [Bucketfile.Get, h1, h2, h3, h4]
  · cases h1 : genv.clientErr <;> cases h2 : genv.readerErr <;>
      cases h3 : s.objects bucket object <;> cases h4 : genv.readErr <;>
      simp [Bucketfile.Get, h1, h2, h3, h4]
  · cases h1 : lenv.clientErr <;> simp [Bucketfile.List, h1]

/-- Unfolding lemma for the listing loop: a run of name events appends
those names to the accumulator in order, then continues on the tail. -/
lemma listLoop_map_name_append (bucket : String) (names : List String)
    (acc : List String) (tail : List Bucketfile.ListEvent) :
    Bucketfile.listLoop bucket acc
        (names.map Bucketfile.ListEvent.name ++ tail)
      = Bucketfile.listLoop bucket (acc ++ names) tail := by
  induction names generalizing acc with
  | nil => simp
  | cons n ns ih => simp [Bucketfile.listLoop, ih]

/-- C2: if the iteration yields the names `names` and then `it.Next()`
fails, `List` returns exactly those accumulated names together with
the listing-tagged error, not an empty sequence. -/
theorem list_partial_carryover (bucket : String)
    (env : Bucketfile.ListEnv) (names : List String) (e : String)
    (rest : List Bucketfile.ListEvent)
    (hc : env.clientErr = none)
    (he : env.events = names.map Bucketfile.ListEvent.name
            ++ Bucketfile.ListEvent.fail e :: rest) :
    (Bucketfile.List bucket env).names = names ∧
    (Bucketfile.List bucket env).err
      = some ("Bucket(\"" ++ bucket ++ "\").Objects: " ++ e) := by
  simp [Bucketfile.List, hc, he, listLoop_map_name_append,
    Bucketfile.listLoop]

/-- Concrete instance of C2: two names followed by a failing page
yield exactly those two names alongside the tagged error. -/
theorem list_partial_carryover_witness :
    (Bucketfile.List "b" ⟨none,
       [Bucketfile.ListEvent.name "a", Bucketfile.ListEvent.name "c",
        Bucketfile.ListEvent.fail "rpc unavailable"]⟩).names = ["a", "c"] ∧
    (Bucketfile.List "b" ⟨none,
       [Bucketfile.ListEvent.name "a", Bucketfile.ListEvent.name "c",
        Bucketfile.ListEvent.fail "rpc unavailable"]⟩).err
      = some ("Bucket(\"" ++ "b" ++ "\").Objects: " ++ "rpc unavailable") :=
  list_partial_carryover "b"
    ⟨none, [Bucketfile.ListEvent.name "a", Bucketfile.ListEvent.name "c",
            Bucketfile.ListEvent.fail "rpc unavailable"]⟩
    ["a", "c"] "rpc unavailable" [] rfl rfl

/-- C7: when every iterator step yields a name and the iteration ends
with the sentinel, `List` succeeds and returns exactly those names in
iteration order — no re-sorting, no deduplication, nothing dropped or
added. -/
theorem list_success_iteration_order (bucket : String)
    (env : Bucketfile.ListEnv) (names : List String)
    (hc : env.clientErr = none)
    (he : env.events = names.map Bucketfile.ListEvent.name) :
    Bucketfile.List bucket env = ⟨names, none, true, true⟩ := by
  have h := listLoop_map_name_append bucket names [] []
  simp at h
  simp [Bucketfile.List, hc, he, h, Bucketfile.listLoop]

/-- Concrete instance of C7: a listing yielding "b", "a", "b" returns
exactly that sequence, duplicates and order preserved. -/
theorem list_success_iteration_order_witness :
    Bucketfile.List "bkt" ⟨none,
        [Bucketfile.ListEvent.name "b", Bucketfile.ListEvent.name "a",
         Bucketfile.ListEvent.name "b"]⟩
      = ⟨["b", "a", "b"], none, true, true⟩ :=
  list_success_iteration_order "bkt"
    ⟨none, [Bucketfile.ListEvent.name "b", Bucketfile.ListEvent.name "a",
            Bucketfile.ListEvent.name "b"]⟩
    ["b", "a", "b"] rfl rfl

/-- C8: when the iterator reports the end-of-listing sentinel
immediately (an empty bucket), `List` returns the empty sequence and
no error. -/
theorem list_empty_bucket (bucket : String) (env : Bucketfile.ListEnv)
    (hc : env.clientErr = none) (he : env.events = []) :
    (Bucketfile.List bucket env).names = [] ∧
    (Bucketfile.List bucket env).err = none := by
  simp [Bucketfile.List, hc, he, Bucketfile.listLoop]

/-- Concrete instance of C8: an immediately-Done iteration yields an
empty name sequence and no error. -/
theorem list_empty_bucket_witness :
    (Bucketfile.List "b" ⟨none, []⟩).names = [] ∧
    (Bucketfile.List "b" ⟨none, []⟩).err = none :=
  list_empty_bucket "b" ⟨none, []⟩ rfl rfl

/-- C3 as stated is false: the claim requires every step of the call,
client construction included, to be bounded by the deadline, but in
`Upload` the `storage.NewClient` call runs under the background
context — the 50-unit timeout context is only created afterwards. -/
theorem deadline_includes_client_construction_false :
    Bucketfile.uploadCalls.head?
      = some ⟨"storage.NewClient", Bucketfile.CtxKind.background⟩ ∧
    ¬ (∀ c ∈ Bucketfile.uploadCalls,
        c.ctx = Bucketfile.CtxKind.withTimeout 50) := by
  refine ⟨rfl, fun h => ?_⟩
  have hmem : (⟨"storage.NewClient", Bucketfile.CtxKind.background⟩ :
      Bucketfile.RemoteCall) ∈ Bucketfile.uploadCalls := by
    simp [Bucketfile.uploadCalls]
  cases h _ hmem

/-- C3 amended: in each operation every remote step other than client
construction is bounded by the deadline (50 units for Upload and Get,
10 for List), while client construction itself runs under the
background context, before the deadline is installed. -/
theorem deadline_after_client_construction :
    (Bucketfile.uploadCalls.all fun c =>
        c.step == "storage.NewClient"
          || c.ctx == Bucketfile.CtxKind.withTimeout 50) = true ∧
    (Bucketfile.getCalls.all fun c =>
        c.step == "storage.NewClient"
          || c.ctx == Bucketfile.CtxKind.withTimeout 50) = true ∧
    (Bucketfile.listCalls.all fun c =>
        c.step == "storage.NewClient"
          || c.ctx == Bucketfile.CtxKind.withTimeout 10) = true ∧
    ((Bucketfile.uploadCalls ++ Bucketfile.getCalls
        ++ Bucketfile.listCalls).all fun c =>
        c.step != "storage.NewClient"
          || c.ctx == Bucketfile.CtxKind.background) = true := by
  decide
